import Mathlib

/-!
Shallow embedding of the Christmas card studio application
(`src/index.tsx`, `src/services/gemini.ts`, `src/types.ts`).

The external Gemini service is modelled as an environment function from the
prompt string to an abstract outcome (`TextResult` / `ImageResult`), covering
the three cases the code distinguishes: a resolved response whose `text`
field may be absent or empty, a resolved response with a list of parts, and a
thrown exception.  The React `setCard` updates of a handler are modelled as
the list of state-update functions the handler issues, in order, so that
frame and interleaving properties can be stated over them.
-/

namespace Christmas

/-- The `CardTone` union type from `src/index.tsx` / `src/types.ts`. -/
inductive CardTone where
  | Heartfelt
  | Funny
  | Professional
  | Poetic
  | ShortAndSweet
deriving DecidableEq

/-- String value of each `CardTone` literal, as it appears in a template string. -/
def CardTone.str : CardTone → String
  | .Heartfelt => "Heartfelt"
  | .Funny => "Funny"
  | .Professional => "Professional"
  | .Poetic => "Poetic"
  | .ShortAndSweet => "Short & Sweet"

/-- The `FrameStyle` union type from `src/index.tsx` / `src/types.ts`. -/
inductive FrameStyle where
  | Classic
  | CandyCane
  | WinterFrost
deriving DecidableEq

/-- The `CardData` interface from `src/index.tsx`. -/
structure CardData where
  recipient : String
  sender : String
  tone : CardTone
  frameStyle : FrameStyle
  message : String
  imageUrl : String
  isGeneratingMessage : Bool
  isGeneratingImage : Bool
deriving DecidableEq

/-- The `INITIAL_CARD` constant from `src/index.tsx`. -/
def INITIAL_CARD : CardData :=
  { recipient := ""
    sender := ""
    tone := CardTone.Heartfelt
    frameStyle := FrameStyle.Classic
    message := "Enter names below to create your magical Christmas wish..."
    imageUrl := "https://images.unsplash.com/photo-1543589077-47d816067f70?auto=format&fit=crop&q=80&w=1000"
    isGeneratingMessage := false
    isGeneratingImage := false }

/-- Outcome of one call to `ai.models.generateContent` for text: either the
promise resolves (and `response.text` is either absent, modelled `none`, or a
string), or the call throws. -/
inductive TextResult where
  | ok (text : Option String)
  | thrown
deriving DecidableEq

/-- JavaScript `t || fallback` on an optional string: `undefined` and the
empty string are falsy. -/
def jsOrElse (t : Option String) (fallback : String) : String :=
  match t with
  | none => fallback
  | some s => if s = "" then fallback else s

/-- The prompt template shared verbatim by `generateWishAI` (`src/index.tsx`)
and `generateWish` (`src/services/gemini.ts`). -/
def wishPrompt (recipient sender : String) (tone : CardTone) : String :=
  "Write a " ++ tone.str ++ " Christmas wish for " ++ recipient ++ " from " ++ sender ++
    ". Keep it under 50 words. Focus on the joy of the holiday season. Do not use any markdown formatting, asterisks, or hashtags. Just the plain text."

/-- The function `generateWishAI` from `src/index.tsx`: queries the text
service with the wish prompt; on success returns `response.text || <empty
fallback>`, and catches any exception, returning the failure fallback, so it
never propagates an error (its result type is a plain `String`). -/
def generateWishAI (recipient sender : String) (tone : CardTone)
    (env : String → TextResult) : String :=
  match env (wishPrompt recipient sender tone) with
  | TextResult.ok t =>
      jsOrElse t "May your holiday be filled with magic and your new year with dreams coming true."
  | TextResult.thrown =>
      "Wishing you a season filled with light and laughter. Merry Christmas!"

/-- The function `generateWish` from `src/services/gemini.ts`: same prompt,
same model and same catch branch as `generateWishAI`, but a different
empty-result fallback string. -/
def generateWish (recipient sender : String) (tone : CardTone)
    (env : String → TextResult) : String :=
  match env (wishPrompt recipient sender tone) with
  | TextResult.ok t => jsOrElse t "May your days be merry and bright!"
  | TextResult.thrown =>
      "Wishing you a season filled with light and laughter. Merry Christmas!"

/-- An inline-data part of an image response: `part.inlineData`. -/
structure InlinePart where
  mimeType : String
  data : String
deriving DecidableEq

/-- One part of `response.candidates[0].content.parts`: either it carries
`inlineData` or it does not (for example a text part). -/
inductive Part where
  | inlineData (d : InlinePart)
  | other
deriving DecidableEq

/-- Truthiness test `part.inlineData` used by the loop in the image functions. -/
def isInlinePart : Part → Bool
  | Part.inlineData _ => true
  | Part.other => false

/-- Outcome of one call to `ai.models.generateContent` for images: the
resolved part list `response.candidates?.[0]?.content?.parts || []` (a
missing candidate or content collapses to `[]`), or a thrown exception. -/
inductive ImageResult where
  | ok (parts : List Part)
  | thrown

/-- The `for (const part of parts) if (part.inlineData) return ...` loop:
first part carrying inline data, if any. -/
def firstInline : List Part → Option InlinePart
  | [] => none
  | Part.inlineData d :: _ => some d
  | Part.other :: rest => firstInline rest

/-- The image prompt built by `generateCardImageAI` in `src/index.tsx`. -/
def imagePrompt (tone : CardTone) : String :=
  "A high-quality Christmas illustration. Style: " ++
    (if tone = CardTone.Funny then "Whimsical high-detail Pixar style"
     else "Elegant painterly aesthetic") ++
    ". Scene: cozy winter landscape, glowing lit pine tree, Santa\x27s sleigh in the sky, soft falling snow. Warm candles. 1:1 aspect ratio. No text. Ultra high resolution."

/-- The function `generateCardImageAI` from `src/index.tsx`: on success scans
the parts for the first inline-data part and returns the data URI
`data:<mimeType>;base64,<data>` built from it, otherwise `null`; any thrown
error is caught and mapped to `null`. -/
def generateCardImageAI (tone : CardTone) (env : String → ImageResult) : Option String :=
  match env (imagePrompt tone) with
  | ImageResult.ok parts =>
      match firstInline parts with
      | some d => some ("data:" ++ d.mimeType ++ ";base64," ++ d.data)
      | none => none
  | ImageResult.thrown => none

/-- The image prompt built by `generateCardImage` in `src/services/gemini.ts`
(the `recipient` parameter is unused in its body). -/
def imagePromptSvc (tone : CardTone) : String :=
  "A stunning, award-winning Christmas masterpiece. Style: " ++
    (if tone = CardTone.Funny then "Whimsical high-detail Pixar style"
     else "Elegant painterly aesthetic with warm golden hour lighting") ++
    ". Subject: A high-quality festive scene featuring a cozy winter house, Santa Claus in his sleigh in the distance, a beautifully lit pine tree, and soft falling snow. Warm candles and glowing decorations. No text. 1:1 aspect ratio. Ultra high resolution."

/-- The function `generateCardImage` from `src/services/gemini.ts`: same
extraction logic as `generateCardImageAI`, with its own prompt. -/
def generateCardImage (tone : CardTone) (env : String → ImageResult) : Option String :=
  match env (imagePromptSvc tone) with
  | ImageResult.ok parts =>
      match firstInline parts with
      | some d => some ("data:" ++ d.mimeType ++ ";base64," ++ d.data)
      | none => none
  | ImageResult.thrown => none

/-- One handler execution, recorded as the ordered list of `setCard`
functional updates it issues and whether it reached the external service. -/
structure OpRun where
  updates : List (CardData → CardData)
  calledService : Bool

/-- Apply a list of `setCard prev => ...` updates in order to a state. -/
def applyAll (s : CardData) (us : List (CardData → CardData)) : CardData :=
  us.foldl (fun st u => u st) s

/-- Final state of a handler run started from `card`. -/
def opFinal (card : CardData) (r : OpRun) : CardData :=
  applyAll card r.updates

/-- The handler `handleGenerateText` from `src/index.tsx`.  The guard is the
JavaScript truthiness test `!card.recipient || !card.sender` (an empty string
is the only falsy string): on failure it alerts and returns without touching
the state or the service.  Otherwise it sets the busy flag, awaits
`generateWishAI` on the invocation-time `recipient`, `sender` and `tone`, and
then writes the wish and clears the busy flag in one functional update. -/
def runGenerateText (card : CardData) (env : String → TextResult) : OpRun :=
  if card.recipient = "" ∨ card.sender = "" then
    { updates := [], calledService := false }
  else
    { updates :=
        [fun prev => { prev with isGeneratingMessage := true },
         fun prev =>
           { prev with
             message := generateWishAI card.recipient card.sender card.tone env
             isGeneratingMessage := false }]
      calledService := true }

/-- The handler `handleGenerateImage` from `src/index.tsx`: sets the busy
flag, awaits `generateCardImageAI` on the invocation-time `tone`; if an image
string came back it writes `imageUrl` and clears the busy flag together,
otherwise it only clears the busy flag. -/
def runGenerateImage (card : CardData) (env : String → ImageResult) : OpRun :=
  { updates :=
      [fun prev => { prev with isGeneratingImage := true }] ++
        (match generateCardImageAI card.tone env with
         | some img =>
             [fun prev => { prev with imageUrl := img, isGeneratingImage := false }]
         | none => [fun prev => { prev with isGeneratingImage := false }])
    calledService := true }

/-- Character class of the JavaScript regular expression `\s`. -/
def isJsWs (c : Char) : Bool :=
  c = '\t' || c = '\n' || c = '\x0B' || c = '\x0C' || c = '\r' || c = ' ' ||
  c = '\u00A0' || c = '\u1680' || ('\u2000' ≤ c && c ≤ '\u200A') ||
  c = '\u2028' || c = '\u2029' || c = '\u202F' || c = '\u205F' ||
  c = '\u3000' || c = '\uFEFF'

/-- Single left-to-right pass implementing `.replace(/\s+/g, '_')` on a
character list: the flag records whether we are inside a whitespace run whose
underscore has already been emitted. -/
def collapseAux : Bool → List Char → List Char
  | _, [] => []
  | inRun, c :: rest =>
      if isJsWs c then
        if inRun then collapseAux true rest else '_' :: collapseAux true rest
      else c :: collapseAux false rest

/-- The string transform `s.replace(/\s+/g, '_')` from `downloadPNG`. -/
def collapseWs (s : String) : String :=
  String.mk (collapseAux false s.data)

/-- The download file name computed in `downloadPNG` (`src/index.tsx`):
`christmas-card-` + `(card.recipient || 'gift').replace(/\s+/g, '_')` +
`.png`. -/
def downloadFileName (recipient : String) : String :=
  "christmas-card-" ++ collapseWs (if recipient = "" then "gift" else recipient) ++ ".png"

/-- Specification-level relation: `CollapsesTo l r` holds when `r` is `l`
with every maximal run of whitespace replaced by a single underscore.  The
`run` constructor consumes a non-empty all-whitespace block and requires the
remainder to start with a non-whitespace character, which makes the block
maximal. -/
inductive CollapsesTo : List Char → List Char → Prop where
  | nil : CollapsesTo [] []
  | keep {c : Char} {l r : List Char} :
      isJsWs c = false → CollapsesTo l r → CollapsesTo (c :: l) (c :: r)
  | run {ws l r : List Char} :
      ws ≠ [] → (∀ c ∈ ws, isJsWs c = true) →
      (∀ c, l.head? = some c → isJsWs c = false) →
      CollapsesTo l r → CollapsesTo (ws ++ l) ('_' :: r)

/-- An interleaving of two update sequences that preserves the relative
order within each sequence. -/
inductive Interleaving :
    List (CardData → CardData) → List (CardData → CardData) →
    List (CardData → CardData) → Prop where
  | nil : Interleaving [] [] []
  | left {x : CardData → CardData} {xs ys zs : List (CardData → CardData)} :
      Interleaving xs ys zs → Interleaving (x :: xs) ys (x :: zs)
  | right {y : CardData → CardData} {xs ys zs : List (CardData → CardData)} :
      Interleaving xs ys zs → Interleaving xs (y :: ys) (y :: zs)

/-- Concrete card with a whitespace-only recipient, used in counterexamples. -/
def wsCard : CardData :=
  { INITIAL_CARD with recipient := " ", sender := "Bob", message := "hello" }

/-- Concrete card with non-empty recipient and sender, used in witnesses. -/
def abCard : CardData :=
  { INITIAL_CARD with recipient := "Ann", sender := "Ben" }

/-- Environment in which every text call throws. -/
def envTextThrow : String → TextResult := fun _ => TextResult.thrown

/-- Environment in which every text call resolves with an absent `text`. -/
def envTextNone : String → TextResult := fun _ => TextResult.ok none

/-- Environment in which every text call resolves with a non-empty string. -/
def envTextHello : String → TextResult := fun _ => TextResult.ok (some "Ho ho ho")

/-- Environment in which every image call throws. -/
def envImageThrow : String → ImageResult := fun _ => ImageResult.thrown

/-- Environment in which every image call resolves with one inline PNG part. -/
def envImagePng : String → ImageResult :=
  fun _ => ImageResult.ok [Part.inlineData ⟨"image/png", "AAAA"⟩]

/-! ### Helper lemmas about whitespace collapsing -/

theorem collapseAux_true_eq (l : List Char) :
    collapseAux true l = collapseAux false (l.dropWhile isJsWs) := by
  induction l with
  | nil => rfl
  | cons c rest ih =>
      cases hc : isJsWs c with
      | true => simpa [collapseAux, hc, List.dropWhile_cons] using ih
      | false => simp [collapseAux, hc, List.dropWhile_cons]

theorem collapseAux_true_of_all_ws (l : List Char) (h : ∀ c ∈ l, isJsWs c = true) :
    collapseAux true l = [] := by
  induction l with
  | nil => rfl
  | cons c rest ih =>
      have hc : isJsWs c = true := h c (List.mem_cons_self c rest)
      simp only [collapseAux, hc, if_pos]
      exact ih fun x hx => h x (List.mem_cons_of_mem c hx)

theorem isJsWs_head_dropWhile :
    ∀ (l : List Char) (c : Char), (l.dropWhile isJsWs).head? = some c → isJsWs c = false := by
  intro l
  induction l with
  | nil => intro c h; simp [List.dropWhile] at h
  | cons a as ih =>
      intro c h
      cases ha : isJsWs a with
      | true =>
          rw [List.dropWhile_cons_of_pos ha] at h
          exact ih c h
      | false =>
          rw [List.dropWhile_cons_of_neg (by simp [ha])] at h
          simp only [List.head?_cons, Option.some.injEq] at h
          subst h
          exact ha

theorem length_dropWhile_ws_le (l : List Char) :
    (l.dropWhile isJsWs).length ≤ l.length :=
  (List.dropWhile_suffix isJsWs).sublist.length_le

theorem collapsesTo_of_le : ∀ (n : ℕ) (l : List Char), l.length ≤ n →
    CollapsesTo l (collapseAux false l) := by
  intro n
  induction n with
  | zero =>
      intro l hl
      have hnil : l = [] := List.eq_nil_of_length_eq_zero (Nat.le_zero.mp hl)
      subst hnil
      exact CollapsesTo.nil
  | succ n ih =>
      intro l hl
      cases l with
      | nil => exact CollapsesTo.nil
      | cons c rest =>
          cases hc : isJsWs c with
          | false =>
              have hrw : collapseAux false (c :: rest) = c :: collapseAux false rest := by
                simp [collapseAux, hc]
              rw [hrw]
              exact CollapsesTo.keep hc
                (ih rest (Nat.le_of_succ_le_succ (by simpa using hl)))
          | true =>
              have hrw : collapseAux false (c :: rest) =
                  '_' :: collapseAux false (rest.dropWhile isJsWs) := by
                simp [collapseAux, hc, collapseAux_true_eq]
              rw [hrw]
              have hsplit : c :: rest =
                  (c :: rest.takeWhile isJsWs) ++ rest.dropWhile isJsWs := by
                simp [List.takeWhile_append_dropWhile]
              rw [hsplit]
              refine CollapsesTo.run (by simp) ?_ ?_ ?_
              · intro x hx
                rcases List.mem_cons.mp hx with h | h
                · subst h; exact hc
                · exact List.mem_takeWhile_imp h
              · intro x hx
                exact isJsWs_head_dropWhile rest x hx
              · refine ih _ (Nat.le_trans (length_dropWhile_ws_le rest) ?_)
                exact Nat.le_of_succ_le_succ (by simpa using hl)

theorem collapsesTo_collapseAux (l : List Char) : CollapsesTo l (collapseAux false l) :=
  collapsesTo_of_le l.length l le_rfl

theorem data_ne_nil_of_ne_empty (r : String) (hr : r ≠ "") : r.data ≠ [] := by
  intro h
  apply hr
  cases r with
  | mk l =>
      simp only [String.data] at h
      subst h
      rfl

/-! ### Claims about the download file name -/

/-- C7: for every recipient string, the export file name is
`christmas-card-` ++ (recipient if non-empty, else `gift`) with every
maximal whitespace run collapsed to a single underscore ++ `.png`; in
particular `"Jo Ann"` maps to `christmas-card-Jo_Ann.png` and `""` maps to
`christmas-card-gift.png`. -/
theorem downloadFileName_collapses_ws :
    (∀ r : String,
        downloadFileName r =
          "christmas-card-" ++ collapseWs (if r = "" then "gift" else r) ++ ".png" ∧
        CollapsesTo (if r = "" then "gift" else r).data
          (collapseWs (if r = "" then "gift" else r)).data)
    ∧ downloadFileName "Jo Ann" = "christmas-card-Jo_Ann.png"
    ∧ downloadFileName "" = "christmas-card-gift.png" := by
  refine ⟨fun r => ⟨rfl, ?_⟩, by decide, by decide⟩
  exact collapsesTo_collapseAux (if r = "" then "gift" else r).data

/-- C10: a whitespace-only recipient such as `" "` yields
`christmas-card-_.png`; the `gift` default applies only to the exactly-empty
recipient, and any non-empty all-whitespace recipient collapses to a single
underscore. -/
theorem downloadFileName_ws_only_recipient :
    downloadFileName " " = "christmas-card-_.png"
    ∧ (∀ r : String, r ≠ "" →
        downloadFileName r = "christmas-card-" ++ collapseWs r ++ ".png")
    ∧ (∀ r : String, r ≠ "" → (∀ c ∈ r.data, isJsWs c = true) →
        downloadFileName r = "christmas-card-_.png") := by
  refine ⟨by decide, fun r hr => ?_, fun r hr hws => ?_⟩
  · simp [downloadFileName, hr]
  · obtain ⟨c, rest, hcr⟩ : ∃ c rest, r.data = c :: rest := by
      cases hd : r.data with
      | nil => exact absurd hd (data_ne_nil_of_ne_empty r hr)
      | cons c rest => exact ⟨c, rest, rfl⟩
    have hc : isJsWs c = true := hws c (by rw [hcr]; exact List.mem_cons_self c rest)
    have hcol : collapseAux false r.data = ['_'] := by
      rw [hcr]
      simp only [collapseAux, hc, if_pos]
      rw [collapseAux_true_of_all_ws rest
        (fun x hx => hws x (by rw [hcr]; exact List.mem_cons_of_mem c hx))]
      simp
    have hws' : collapseWs r = "_" := by
      simp only [collapseWs, hcol]
    simp [downloadFileName, hr, hws']

/-- Witness for C10 at the concrete recipients `"Ann"` and `"\t\t"`. -/
theorem downloadFileName_ws_only_recipient_witness :
    downloadFileName "Ann" = "christmas-card-" ++ collapseWs "Ann" ++ ".png"
    ∧ downloadFileName "\t\t" = "christmas-card-_.png" :=
  ⟨downloadFileName_ws_only_recipient.2.1 "Ann" (by decide),
   downloadFileName_ws_only_recipient.2.2 "\t\t" (by decide) (by decide)⟩

/-! ### Claims about the text-generation handler -/

/-- C1 counterexample: with the whitespace-only recipient `" "` (which is
empty after trimming) and sender `"Bob"`, `handleGenerateText` passes the
JavaScript falsiness guard: it does reach the external service, raises the
busy flag in its first state update, and overwrites `message`, contradicting
the claim that a whitespace-only name aborts the operation. -/
theorem handleGenerateText_trim_counterexample :
    (∀ c ∈ wsCard.recipient.data, isJsWs c = true)
    ∧ wsCard.recipient ≠ ""
    ∧ (runGenerateText wsCard envTextThrow).calledService = true
    ∧ (applyAll wsCard
        ((runGenerateText wsCard envTextThrow).updates.take 1)).isGeneratingMessage = true
    ∧ (opFinal wsCard (runGenerateText wsCard envTextThrow)).message ≠ wsCard.message := by
  refine ⟨by decide, by decide, by decide, by decide, by decide⟩

/-- C1 (amended): the guard is JavaScript falsiness, not trimming.  Whenever
`recipient` or `sender` is exactly the empty string, the handler issues no
state update at all and never contacts the service, so `isGeneratingMessage`
is never raised and every field of the card, `message` included, is left
unchanged; whitespace-only names, however, pass the guard. -/
theorem handleGenerateText_empty_guard (card : CardData) (env : String → TextResult)
    (h : card.recipient = "" ∨ card.sender = "") :
    (runGenerateText card env).updates = []
    ∧ (runGenerateText card env).calledService = false
    ∧ opFinal card (runGenerateText card env) = card := by
  refine ⟨?_, ?_, ?_⟩ <;> simp [runGenerateText, h, opFinal, applyAll]

/-- Witness for the amended C1 at the initial card, whose names are empty. -/
theorem handleGenerateText_empty_guard_witness :
    (INITIAL_CARD.recipient = "" ∨ INITIAL_CARD.sender = "")
    ∧ (runGenerateText INITIAL_CARD envTextThrow).updates = []
    ∧ (runGenerateText INITIAL_CARD envTextThrow).calledService = false
    ∧ opFinal INITIAL_CARD (runGenerateText INITIAL_CARD envTextThrow) = INITIAL_CARD := by
  have h := handleGenerateText_empty_guard INITIAL_CARD envTextThrow (Or.inl rfl)
  exact ⟨Or.inl rfl, h.1, h.2.1, h.2.2⟩

/-- C2: if the external text call throws, `generateWishAI` — and the
identical catch branch of `generateWish` — returns exactly the failure
fallback string instead of propagating the exception (both functions are
total with result type `String`), and a text-generation run that passed the
guard settles with `message` equal to that string. -/
theorem wish_thrown_fallback (card : CardData) (env : String → TextResult)
    (hthrow : env (wishPrompt card.recipient card.sender card.tone) = TextResult.thrown)
    (hguard : ¬(card.recipient = "" ∨ card.sender = "")) :
    generateWishAI card.recipient card.sender card.tone env =
      "Wishing you a season filled with light and laughter. Merry Christmas!"
    ∧ generateWish card.recipient card.sender card.tone env =
      "Wishing you a season filled with light and laughter. Merry Christmas!"
    ∧ (opFinal card (runGenerateText card env)).message =
      "Wishing you a season filled with light and laughter. Merry Christmas!" := by
  refine ⟨?_, ?_, ?_⟩ <;>
    simp [generateWishAI, generateWish, hthrow, runGenerateText, hguard, opFinal, applyAll]

/-- Witness for C2 at a concrete card and a throwing environment. -/
theorem wish_thrown_fallback_witness :
    generateWishAI abCard.recipient abCard.sender abCard.tone envTextThrow =
      "Wishing you a season filled with light and laughter. Merry Christmas!"
    ∧ generateWish abCard.recipient abCard.sender abCard.tone envTextThrow =
      "Wishing you a season filled with light and laughter. Merry Christmas!"
    ∧ (opFinal abCard (runGenerateText abCard envTextThrow)).message =
      "Wishing you a season filled with light and laughter. Merry Christmas!" :=
  wish_thrown_fallback abCard envTextThrow rfl (by decide)

/-- C3: if the external text call resolves but `response.text` is absent or
the empty string, `generateWishAI` returns exactly the empty-result fallback
string, and a text-generation run that passed the guard settles with
`message` equal to that string. -/
theorem wish_empty_fallback (card : CardData) (env : String → TextResult)
    (hempty : env (wishPrompt card.recipient card.sender card.tone) = TextResult.ok none
      ∨ env (wishPrompt card.recipient card.sender card.tone) = TextResult.ok (some ""))
    (hguard : ¬(card.recipient = "" ∨ card.sender = "")) :
    generateWishAI card.recipient card.sender card.tone env =
      "May your holiday be filled with magic and your new year with dreams coming true."
    ∧ (opFinal card (runGenerateText card env)).message =
      "May your holiday be filled with magic and your new year with dreams coming true." := by
  rcases hempty with h | h <;> refine ⟨?_, ?_⟩ <;>
    simp [generateWishAI, h, jsOrElse, runGenerateText, hguard, opFinal, applyAll]

/-- Witness for C3 at a concrete card and an empty-result environment. -/
theorem wish_empty_fallback_witness :
    generateWishAI abCard.recipient abCard.sender abCard.tone envTextNone =
      "May your holiday be filled with magic and your new year with dreams coming true."
    ∧ (opFinal abCard (runGenerateText abCard envTextNone)).message =
      "May your holiday be filled with magic and your new year with dreams coming true." :=
  wish_empty_fallback abCard envTextNone (Or.inl rfl) (by decide)

/-- C4: a text-generation run that actually started (passed the guard and
reached the service) always settles with `isGeneratingMessage = false`, and
an image-generation run always settles with `isGeneratingImage = false`,
for every environment outcome — no path leaves a busy flag stuck true. -/
theorem busy_flags_cleared (card : CardData) (envT : String → TextResult)
    (envI : String → ImageResult) :
    ((runGenerateText card envT).calledService = true →
      (opFinal card (runGenerateText card envT)).isGeneratingMessage = false)
    ∧ (opFinal card (runGenerateImage card envI)).isGeneratingImage = false := by
  constructor
  · intro hcall
    by_cases h : card.recipient = "" ∨ card.sender = ""
    · simp [runGenerateText, h] at hcall
    · simp [runGenerateText, h, opFinal, applyAll]
  · rcases himg : generateCardImageAI card.tone envI with _ | img <;>
      simp [runGenerateImage, himg, opFinal, applyAll]

/-- Witness for C4 at a concrete card and throwing environments. -/
theorem busy_flags_cleared_witness :
    (opFinal abCard (runGenerateText abCard envTextThrow)).isGeneratingMessage = false
    ∧ (opFinal abCard (runGenerateImage abCard envImageThrow)).isGeneratingImage = false :=
  ⟨(busy_flags_cleared abCard envTextThrow envImageThrow).1 (by decide),
   (busy_flags_cleared abCard envTextThrow envImageThrow).2⟩

/-- C9 counterexample: on a resolved call with an absent text, the two
implementations return their distinct empty-result fallback strings, so they
are not extensionally equal. -/
theorem wish_impls_differ_on_empty :
    generateWishAI "Ann" "Ben" CardTone.Heartfelt envTextNone ≠
      generateWish "Ann" "Ben" CardTone.Heartfelt envTextNone := by
  decide

/-- C9 (amended): `generateWishAI` (`src/index.tsx`) and `generateWish`
(`src/services/gemini.ts`) agree whenever the service throws or returns a
non-empty string, but on an empty or absent result they return different
fallbacks — the former the magic/dreams string, the latter
`"May your days be merry and bright!"`. -/
theorem wish_impls_agree_except_empty_result (r s : String) (t : CardTone)
    (env : String → TextResult) :
    (env (wishPrompt r s t) = TextResult.thrown →
      generateWishAI r s t env = generateWish r s t env)
    ∧ (∀ txt : String, env (wishPrompt r s t) = TextResult.ok (some txt) → txt ≠ "" →
        generateWishAI r s t env = txt ∧ generateWish r s t env = txt)
    ∧ (env (wishPrompt r s t) = TextResult.ok none
        ∨ env (wishPrompt r s t) = TextResult.ok (some "") →
        generateWishAI r s t env =
          "May your holiday be filled with magic and your new year with dreams coming true."
        ∧ generateWish r s t env = "May your days be merry and bright!") := by
  refine ⟨fun h => ?_, fun txt h hne => ?_, fun h => ?_⟩
  · simp [generateWishAI, generateWish, h]
  · constructor <;> simp [generateWishAI, generateWish, h, jsOrElse, hne]
  · rcases h with h | h <;> constructor <;>
      simp [generateWishAI, generateWish, h, jsOrElse]

/-- Witness for the amended C9 at concrete inputs: a non-empty result, on
which the implementations agree, and a throwing call, on which they agree. -/
theorem wish_impls_agree_except_empty_result_witness :
    generateWishAI "Ann" "Ben" CardTone.Heartfelt envTextHello = "Ho ho ho"
    ∧ generateWish "Ann" "Ben" CardTone.Heartfelt envTextHello = "Ho ho ho"
    ∧ generateWishAI "Ann" "Ben" CardTone.Heartfelt envTextThrow =
        generateWish "Ann" "Ben" CardTone.Heartfelt envTextThrow := by
  refine ⟨?_, ?_, ?_⟩
  · exact ((wish_impls_agree_except_empty_result "Ann" "Ben" CardTone.Heartfelt
      envTextHello).2.1 "Ho ho ho" rfl (by decide)).1
  · exact ((wish_impls_agree_except_empty_result "Ann" "Ben" CardTone.Heartfelt
      envTextHello).2.1 "Ho ho ho" rfl (by decide)).2
  · exact (wish_impls_agree_except_empty_result "Ann" "Ben" CardTone.Heartfelt
      envTextThrow).1 rfl

/-! ### Claims about the image-generation handler -/

theorem firstInline_eq_none :
    ∀ parts : List Part, (∀ p ∈ parts, isInlinePart p = false) → firstInline parts = none := by
  intro parts
  induction parts with
  | nil => intro _; rfl
  | cons p rest ih =>
      intro h
      cases p with
      | inlineData d =>
          exact absurd (h _ (List.mem_cons_self _ _)) (by simp [isInlinePart])
      | other =>
          simpa [firstInline] using ih fun x hx => h x (List.mem_cons_of_mem _ hx)

theorem firstInline_append (pre post : List Part) (d : InlinePart)
    (hpre : ∀ p ∈ pre, isInlinePart p = false) :
    firstInline (pre ++ Part.inlineData d :: post) = some d := by
  induction pre with
  | nil => rfl
  | cons p rest ih =>
      cases p with
      | inlineData e =>
          exact absurd (hpre _ (List.mem_cons_self _ _)) (by simp [isInlinePart])
      | other =>
          simpa [firstInline] using ih fun x hx => hpre x (List.mem_cons_of_mem _ hx)

/-- C5: when `generateCardImageAI` produces `null` the image handler's
settlement leaves `imageUrl` exactly at its pre-call value (no fallback
asset is substituted); moreover `null` is indeed produced both on a thrown
call and on a resolved response none of whose parts carries inline data. -/
theorem image_null_leaves_imageUrl (card : CardData) (env : String → ImageResult) :
    (generateCardImageAI card.tone env = none →
      (opFinal card (runGenerateImage card env)).imageUrl = card.imageUrl)
    ∧ (∀ parts : List Part, env (imagePrompt card.tone) = ImageResult.ok parts →
        (∀ p ∈ parts, isInlinePart p = false) → generateCardImageAI card.tone env = none)
    ∧ (env (imagePrompt card.tone) = ImageResult.thrown →
        generateCardImageAI card.tone env = none) := by
  refine ⟨fun h => ?_, fun parts hok hnone => ?_, fun h => ?_⟩
  · simp [runGenerateImage, h, opFinal, applyAll]
  · simp [generateCardImageAI, hok, firstInline_eq_none parts hnone]
  · simp [generateCardImageAI, h]

/-- Witness for C5 at a concrete card and a throwing image environment. -/
theorem image_null_leaves_imageUrl_witness :
    (opFinal abCard (runGenerateImage abCard envImageThrow)).imageUrl = abCard.imageUrl
    ∧ generateCardImageAI abCard.tone envImageThrow = none :=
  ⟨(image_null_leaves_imageUrl abCard envImageThrow).1 rfl,
   (image_null_leaves_imageUrl abCard envImageThrow).2.2 rfl⟩

/-- C6: if the resolved parts decompose as a prefix without inline data, an
inline part `d` and a tail, `generateCardImageAI` returns the data URI
`data:<mimeType>;base64,<data>` built from `d` — the first inline part —
and the image handler settles with `imageUrl` equal to that URI. -/
theorem image_first_inline_data_uri (t : CardTone) (env : String → ImageResult)
    (pre post : List Part) (d : InlinePart)
    (hok : env (imagePrompt t) = ImageResult.ok (pre ++ Part.inlineData d :: post))
    (hpre : ∀ p ∈ pre, isInlinePart p = false) :
    generateCardImageAI t env = some ("data:" ++ d.mimeType ++ ";base64," ++ d.data)
    ∧ ∀ card : CardData, card.tone = t →
        (opFinal card (runGenerateImage card env)).imageUrl =
          "data:" ++ d.mimeType ++ ";base64," ++ d.data := by
  have hgen : generateCardImageAI t env =
      some ("data:" ++ d.mimeType ++ ";base64," ++ d.data) := by
    simp [generateCardImageAI, hok, firstInline_append pre post d hpre]
  refine ⟨hgen, fun card hc => ?_⟩
  rw [← hc] at hgen
  simp [runGenerateImage, hgen, opFinal, applyAll]

/-- Witness for C6: a single `image/png` inline part with data `AAAA` yields
`data:image/png;base64,AAAA`, both as the function result and as the settled
`imageUrl`. -/
theorem image_first_inline_data_uri_witness :
    generateCardImageAI CardTone.Heartfelt envImagePng = some "data:image/png;base64,AAAA"
    ∧ (opFinal abCard (runGenerateImage abCard envImagePng)).imageUrl =
        "data:image/png;base64,AAAA" := by
  have h := image_first_inline_data_uri CardTone.Heartfelt envImagePng [] []
    ⟨"image/png", "AAAA"⟩ rfl (by simp)
  constructor
  · rw [h.1]; decide
  · rw [h.2 abCard rfl]; decide

/-! ### Frame and interleaving of the two handlers -/

theorem interleaving_append (xs ys : List (CardData → CardData)) :
    Interleaving xs ys (xs ++ ys) := by
  induction xs with
  | nil =>
      induction ys with
      | nil => exact Interleaving.nil
      | cons y ys ih => exact Interleaving.right ih
  | cons x xs ih => exact Interleaving.left ih

theorem interleaving_two_two (a b c d : CardData → CardData) (zs : List (CardData → CardData))
    (h : Interleaving [a, b] [c, d] zs) :
    zs = [a, b, c, d] ∨ zs = [a, c, b, d] ∨ zs = [a, c, d, b]
    ∨ zs = [c, a, b, d] ∨ zs = [c, a, d, b] ∨ zs = [c, d, a, b] := by
  cases h with
  | left h1 =>
      cases h1 with
      | left h2 =>
          cases h2 with
          | right h3 =>
              cases h3 with
              | right h4 => cases h4; exact Or.inl rfl
      | right h2 =>
          cases h2 with
          | left h3 =>
              cases h3 with
              | right h4 => cases h4; exact Or.inr (Or.inl rfl)
          | right h3 =>
              cases h3 with
              | left h4 => cases h4; exact Or.inr (Or.inr (Or.inl rfl))
  | right h1 =>
      cases h1 with
      | left h2 =>
          cases h2 with
          | left h3 =>
              cases h3 with
              | right h4 => cases h4; exact Or.inr (Or.inr (Or.inr (Or.inl rfl)))
          | right h3 =>
              cases h3 with
              | left h4 =>
                  cases h4; exact Or.inr (Or.inr (Or.inr (Or.inr (Or.inl rfl))))
      | right h2 =>
          cases h2 with
          | left h3 =>
              cases h3 with
              | left h4 =>
                  cases h4; exact Or.inr (Or.inr (Or.inr (Or.inr (Or.inr rfl))))

/-- C8: each of the text handler's state updates preserves every field other
than `message` and `isGeneratingMessage`, each of the image handler's state
updates preserves every field other than `imageUrl` and `isGeneratingImage`,
and under every interleaving of the two update sequences the final state has
both busy flags false, `message` as the text operation alone would set it,
`imageUrl` as the image operation alone would set it, and the four remaining
fields unchanged. -/
theorem ops_frame_and_interleaving (card : CardData) (envT : String → TextResult)
    (envI : String → ImageResult) (hr : card.recipient ≠ "") (hs : card.sender ≠ "") :
    (∀ u ∈ (runGenerateText card envT).updates, ∀ s : CardData,
        (u s).recipient = s.recipient ∧ (u s).sender = s.sender ∧ (u s).tone = s.tone
        ∧ (u s).frameStyle = s.frameStyle ∧ (u s).imageUrl = s.imageUrl
        ∧ (u s).isGeneratingImage = s.isGeneratingImage)
    ∧ (∀ u ∈ (runGenerateImage card envI).updates, ∀ s : CardData,
        (u s).recipient = s.recipient ∧ (u s).sender = s.sender ∧ (u s).tone = s.tone
        ∧ (u s).frameStyle = s.frameStyle ∧ (u s).message = s.message
        ∧ (u s).isGeneratingMessage = s.isGeneratingMessage)
    ∧ (∀ zs, Interleaving (runGenerateText card envT).updates
          (runGenerateImage card envI).updates zs →
        (applyAll card zs).isGeneratingMessage = false
        ∧ (applyAll card zs).isGeneratingImage = false
        ∧ (applyAll card zs).message = (opFinal card (runGenerateText card envT)).message
        ∧ (applyAll card zs).imageUrl = (opFinal card (runGenerateImage card envI)).imageUrl
        ∧ (applyAll card zs).recipient = card.recipient
        ∧ (applyAll card zs).sender = card.sender
        ∧ (applyAll card zs).tone = card.tone
        ∧ (applyAll card zs).frameStyle = card.frameStyle) := by
  have hguard : ¬(card.recipient = "" ∨ card.sender = "") := by simp [hr, hs]
  have htU : (runGenerateText card envT).updates =
      [fun prev => { prev with isGeneratingMessage := true },
       fun prev =>
         { prev with
           message := generateWishAI card.recipient card.sender card.tone envT
           isGeneratingMessage := false }] := by
    simp [runGenerateText, hguard]
  refine ⟨?_, ?_, ?_⟩
  · intro u hu s
    rw [htU] at hu
    simp only [List.mem_cons, List.not_mem_nil, or_false] at hu
    rcases hu with rfl | rfl <;> exact ⟨rfl, rfl, rfl, rfl, rfl, rfl⟩
  · intro u hu s
    simp only [runGenerateImage, List.cons_append, List.nil_append,
      List.mem_cons, List.not_mem_nil, or_false] at hu
    rcases hu with rfl | hu
    · exact ⟨rfl, rfl, rfl, rfl, rfl, rfl⟩
    · revert hu
      rcases generateCardImageAI card.tone envI with _ | img <;>
        · intro hu
          simp only [List.mem_cons, List.not_mem_nil, or_false] at hu
          subst hu
          exact ⟨rfl, rfl, rfl, rfl, rfl, rfl⟩
  · intro zs hz
    rcases himg : generateCardImageAI card.tone envI with _ | img <;>
      · rw [htU] at hz
        simp only [runGenerateImage, himg, List.cons_append, List.nil_append] at hz
        rcases interleaving_two_two _ _ _ _ zs hz with h | h | h | h | h | h <;> subst h <;>
          simp [applyAll, opFinal, runGenerateText, runGenerateImage, hguard, himg]

/-- Witness for C8 at a concrete card, a throwing text environment, an
inline-PNG image environment and the sequential interleaving. -/
theorem ops_frame_and_interleaving_witness :
    (applyAll abCard ((runGenerateText abCard envTextThrow).updates ++
        (runGenerateImage abCard envImagePng).updates)).isGeneratingMessage = false
    ∧ (applyAll abCard ((runGenerateText abCard envTextThrow).updates ++
        (runGenerateImage abCard envImagePng).updates)).isGeneratingImage = false
    ∧ (applyAll abCard ((runGenerateText abCard envTextThrow).updates ++
        (runGenerateImage abCard envImagePng).updates)).imageUrl =
      (opFinal abCard (runGenerateImage abCard envImagePng)).imageUrl := by
  have h := (ops_frame_and_interleaving abCard envTextThrow envImagePng
      (by decide) (by decide)).2.2
    ((runGenerateText abCard envTextThrow).updates ++
      (runGenerateImage abCard envImagePng).updates)
    (interleaving_append _ _)
  exact ⟨h.1, h.2.1, h.2.2.2.1⟩

end Christmas
